import Mathlib

/-!
Verification of the routing-use-case repository core: the URL search-filter
schema, the posts-by-user fetch wrapper, the query cache around it, the
authentication state holder, and the authenticated-route guard.

Each definition is a shallow embedding of the corresponding TypeScript
source. JavaScript numbers appearing as identifiers are modelled as `Int`;
`string | null` values as `Option String`; a rejected promise as `none` in
an `Option` result.
-/

/-- A value of a single URL search parameter after the router has decoded
the query string: a JSON-style value, or `absent` when the key is missing. -/
inductive RawValue where
  | num (n : Int)
  | str (s : String)
  | boolean (b : Bool)
  | null
  | absent
deriving DecidableEq, Repr

/-- The raw search object handed to `validateSearch` for the
`/_auth/users/$id` route: one raw value per filter field. -/
structure RawSearch where
  userId : RawValue
  postId : RawValue
deriving DecidableEq, Repr

/-- `FilterType`, the output shape of `FilterSchema`: both identifying
fields are optional numbers. -/
structure FilterType where
  userId : Option Int
  postId : Option Int
deriving DecidableEq, Repr

/-- `z.number()`: succeeds exactly on a numeric value. -/
def zodNumber : RawValue → Except String Int
  | .num n => .ok n
  | _ => .error "Expected number"

/-- `z.number().optional()`: `absent` (undefined) is accepted as `none`;
any other value must be numeric. -/
def zodNumberOptional : RawValue → Except String (Option Int)
  | .absent => .ok none
  | v => (zodNumber v).map some

/-- `z.number().optional().catch(undefined)`: a field-level validation
error is swallowed and replaced by `undefined`. -/
def zodNumberOptionalCatch (v : RawValue) : Except String (Option Int) :=
  match zodNumberOptional v with
  | .ok x => .ok x
  | .error _ => .ok none

/-- `FilterSchema.parse` from src/services/types/Filters: a `z.object`
whose two fields each run the number/optional/catch pipeline. -/
def FilterSchema.parse (raw : RawSearch) : Except String FilterType := do
  let u ← zodNumberOptionalCatch raw.userId
  let p ← zodNumberOptionalCatch raw.postId
  return ⟨u, p⟩

/-- Characterisation of one field of the lenient policy: a numeric raw
value is kept, everything else (absent, string, boolean, null) becomes
absent. -/
def numOrAbsent : RawValue → Option Int
  | .num n => some n
  | _ => none

/-- Modelled from the spec: the URL serialisation layer (the router
stringify/parse pair) is library code absent from src/. Per the spec, a
present numeric field is written to the URL and decodes back to a numeric
raw value; an absent field writes nothing. -/
def serializeField : Option Int → RawValue
  | some n => .num n
  | none => .absent

/-- Modelled from the spec: writing a whole SearchFilter back to the URL
search string, field by field. -/
def serializeSearch (f : FilterType) : RawSearch :=
  ⟨serializeField f.userId, serializeField f.postId⟩

/-- The shape of one post record as consumed by the user view
(`data.id`, `data.title`, `data.body`, plus the `userId` the filter
targets). -/
structure PostType where
  userId : Int
  id : Int
  title : String
  body : String
deriving DecidableEq, Repr

/-- A JSON payload returned by the HTTP collaborator. -/
inductive Json where
  | num (n : Int)
  | str (s : String)
  | boolean (b : Bool)
  | null
  | arr (items : List Json)
  | obj (userId : Option Json) (id : Option Json) (title : Option Json) (body : Option Json)

/-- Modelled from the spec: `PostSchema` lives in src/services/types/Posts,
which is absent from src/. Per the spec it validates one record of the
expected shape: numeric `userId` and `id`, string `title` and `body`. -/
def parsePost : Json → Option PostType
  | .obj (some (.num u)) (some (.num i)) (some (.str t)) (some (.str b)) =>
      some ⟨u, i, t, b⟩
  | _ => none

/-- Helper: validate every element of a list of JSON records. -/
def parsePostList : List Json → Option (List PostType)
  | [] => some []
  | j :: js => do
      let p ← parsePost j
      let ps ← parsePostList js
      return p :: ps

/-- `PostSchema.array().safeParse`: the payload must be an array and every
element must validate. -/
def parsePostArray : Json → Option (List PostType)
  | .arr items => parsePostList items
  | _ => none

/-- Modelled from the spec: `placeholderPost` is a fixed placeholder
payload defined outside src/; only its fixedness matters. -/
def placeholderPost : PostType :=
  ⟨0, 0, "placeholder", "placeholder"⟩

/-- `ReturnUserPostType`: the result union built by `GetUserPostById`,
an error tag wrapping the placeholder-shaped record or a success tag
wrapping the validated collection. -/
inductive ReturnUserPostType where
  | error (data : PostType)
  | success (data : List PostType)
deriving DecidableEq, Repr

/-- Outcome of the single `api.get` call: a JSON body, or a transport
rejection. -/
inductive FetchOutcome where
  | ok (body : Json)
  | reject

/-- JavaScript falsiness of an optional number: `undefined` and `0` are
falsy, every other number is truthy. -/
def jsFalsyNum : Option Int → Bool
  | none => true
  | some n => n == 0

/-- `GetUserPostById` from src/services/hooks/postsByUser. Returns the
settled promise value (`none` when the awaited fetch rejected and the
async function itself rejects) together with the number of network calls
issued. -/
def GetUserPostById (filter : FilterType) (net : FetchOutcome) :
    Option ReturnUserPostType × Nat :=
  if jsFalsyNum filter.postId && jsFalsyNum filter.userId then
    (some (.error placeholderPost), 0)
  else
    match net with
    | .reject => (none, 1)
    | .ok body =>
        match parsePostArray body with
        | none => (some (.error placeholderPost), 1)
        | some posts => (some (.success posts), 1)

/-- Modelled from the spec: the query cache behind
`queryClient.ensureQueryData` is library code absent from src/. Per the
spec it is an explicit map from the canonical cache key (the filter, under
the fixed resource tag of `UserPostById`) to the in-flight-or-resolved
promise for that key; a second request for the same key joins the stored
promise instead of starting a new resolution. -/
structure QueryCache where
  entries : List (FilterType × Option ReturnUserPostType)
deriving DecidableEq, Repr

/-- Look up the promise stored under a cache key in the entry list. -/
def lookupKey : List (FilterType × Option ReturnUserPostType) → FilterType →
    Option (Option ReturnUserPostType)
  | [], _ => none
  | e :: es, f => if e.fst = f then some e.snd else lookupKey es f

/-- Look up the promise stored under a cache key. -/
def QueryCache.lookup (c : QueryCache) (f : FilterType) :
    Option (Option ReturnUserPostType) :=
  lookupKey c.entries f

/-- Modelled from the spec: `ensure` resolves the cache entry for a
filter. A stored promise for the key is returned as is with no new fetch;
otherwise the query function `GetUserPostById` runs once and its promise
is stored under the key. Returns the observed entry, the updated cache,
and the number of fetches this call triggered. -/
def ensure (c : QueryCache) (f : FilterType) (net : FetchOutcome) :
    Option ReturnUserPostType × QueryCache × Nat :=
  match c.lookup f with
  | some e => (e, c, 0)
  | none =>
      let r := GetUserPostById f net
      (r.fst, ⟨(f, r.fst) :: c.entries⟩, r.snd)

/-- A cache with no entries, the state before any navigation. -/
def emptyCache : QueryCache := ⟨[]⟩

/-- `LoginType`: the parsed output of `LoginSchema`. -/
structure LoginType where
  username : String
  password : String
deriving DecidableEq, Repr

/-- Strip whitespace from both ends of a character list. -/
def trimChars (l : List Char) : List Char :=
  ((l.dropWhile Char.isWhitespace).reverse.dropWhile Char.isWhitespace).reverse

/-- The trim transform applied by the schema to both string fields. -/
def strTrim (s : String) : String :=
  ⟨trimChars s.data⟩

/-- `LoginSchema.parse`: the username is any string, the password must
have length between 3 and 14, and both fields are trimmed on output. A
credentials value is structurally valid when it is a possible parse
output of this schema. -/
def LoginSchema.parse (input : LoginType) : Except String LoginType :=
  if input.password.length < 3 then .error "too short"
  else if 14 < input.password.length then .error "too long"
  else .ok ⟨strTrim input.username, strTrim input.password⟩

/-- JavaScript truthiness of a `string | null` value: `null` and the empty
string are falsy. -/
def jsTruthyStr : Option String → Bool
  | none => false
  | some s => s != ""

/-- The persisted key-value store: the two localStorage keys
boilerplate.auth.user and boilerplate.auth.token. -/
structure Storage where
  user : Option String
  token : Option String
deriving DecidableEq, Repr

/-- `setStoredUser`: a truthy user is written under the user key,
otherwise the user key is removed. -/
def setStoredUser (s : Storage) (u : Option String) : Storage :=
  if jsTruthyStr u then { s with user := u } else { s with user := none }

/-- `setStoredToken` as written in the source: a truthy token is written
under the token key, but the clearing branch removes `key` (the user key)
instead of `keyToken`. -/
def setStoredToken (s : Storage) (t : Option String) : Storage :=
  if jsTruthyStr t then { s with token := t } else { s with user := none }

/-- The auth state holder: the in-memory `user` and `token` React state
plus the persisted storage. -/
structure AuthState where
  user : Option String
  token : Option String
  storage : Storage
deriving DecidableEq, Repr

/-- The read view exposed to the rest of the system:
`isAuthenticated = !!user` plus the raw fields. -/
structure Session where
  isAuthenticated : Bool
  user : Option String
  token : Option String
deriving DecidableEq, Repr

/-- `getSession`: derive the session record from the in-memory state. -/
def getSession (st : AuthState) : Session :=
  ⟨jsTruthyStr st.user, st.user, st.token⟩

/-- `login` from the auth provider: after the simulated latency it stores
the username (persisted and in memory) then the token (persisted and in
memory), in source order. -/
def login (st : AuthState) (creds : LoginType) (tok : String) : AuthState :=
  let s1 := setStoredUser st.storage (some creds.username)
  let s2 := setStoredToken s1 (some tok)
  { user := some creds.username, token := some tok, storage := s2 }

/-- `logout` from the auth provider: after the simulated latency it clears
the stored user and the in-memory user; it never touches the token. -/
def logout (st : AuthState) : AuthState :=
  { st with storage := setStoredUser st.storage none, user := none }

/-- An auth state with empty storage and no session, as after a fresh
start with empty persistence. -/
def freshAuthState : AuthState := ⟨none, none, ⟨none, none⟩⟩

/-- What the `/_auth` layout route renders: the inline login surface, or
the router outlet delegating to the nested target subtree. -/
inductive AuthRender where
  | loginSurface
  | outlet (target : String)
deriving DecidableEq, Repr

/-- The `/_auth` route component: when `isAuthenticated` is false it
returns the login surface, otherwise the outlet for the requested
target. -/
def authGuardComponent (isAuthenticated : Bool) (target : String) : AuthRender :=
  if !isAuthenticated then .loginSurface else .outlet target

/-- A navigation into the protected subtree passes through the guard; the
component only chooses what to render and leaves the URL untouched. -/
def guardNavigate (isAuthenticated : Bool) (url : String) : AuthRender × String :=
  (authGuardComponent isAuthenticated url, url)

/-- The query function issues at most one network call per invocation. -/
theorem GetUserPostById_fetch_le_one (f : FilterType) (net : FetchOutcome) :
    (GetUserPostById f net).snd ≤ 1 := by
  unfold GetUserPostById
  split
  · simp
  · match net with
    | .reject => simp
    | .ok body => dsimp only; split <;> simp

/-- C1: calling ensure twice in immediate succession for the same filter
triggers at most one fetch in total, the second call triggers none (it
joins the stored resolution for the key), and both calls observe the same
resulting entry. -/
theorem ensure_twice_coalesces (c : QueryCache) (f : FilterType) (net net2 : FetchOutcome) :
    (ensure c f net).snd.snd + (ensure (ensure c f net).snd.fst f net2).snd.snd ≤ 1 ∧
    (ensure (ensure c f net).snd.fst f net2).snd.snd = 0 ∧
    (ensure (ensure c f net).snd.fst f net2).fst = (ensure c f net).fst := by
  unfold ensure
  match h : c.lookup f with
  | some e =>
      simp [h]
  | none =>
      have hl : QueryCache.lookup ⟨(f, (GetUserPostById f net).fst) :: c.entries⟩ f
          = some (GetUserPostById f net).fst := by
        simp [QueryCache.lookup, lookupKey]
      simp [h, hl]
      exact GetUserPostById_fetch_le_one f net

/-- C2: with an unauthenticated session a protected navigation renders the
login surface, never the target subtree, and the URL is unchanged; with an
authenticated session rendering is delegated to the nested target
unconditionally, again without a URL change. -/
theorem guard_renders_by_auth_state (url : String) :
    guardNavigate false url = (.loginSurface, url) ∧
    (∀ t, (guardNavigate false url).fst ≠ .outlet t) ∧
    guardNavigate true url = (.outlet url, url) := by
  refine ⟨rfl, ?_, rfl⟩
  intro t h
  simp [guardNavigate, authGuardComponent] at h

/-- C3 counterexample: the input with empty username and password "abc"
passes LoginSchema, so the resulting credentials are structurally valid,
yet after login with them the session is not authenticated, because
`isAuthenticated = !!user` and the empty string is falsy. -/
theorem login_empty_username_not_authenticated :
    LoginSchema.parse ⟨"", "abc"⟩ = .ok ⟨"", "abc"⟩ ∧
    (getSession (login freshAuthState ⟨"", "abc"⟩ "tok")).isAuthenticated = false := by
  constructor <;> rfl

/-- C3 amended: for structurally valid credentials (a parse output of
LoginSchema) whose username is nonempty, after login the session is
authenticated and its user equals the credentials username; after logout
the session is never authenticated. -/
theorem login_logout_session_invariant (st st2 : AuthState) (input creds : LoginType)
    (tok : String) (_hv : LoginSchema.parse input = .ok creds)
    (hu : creds.username ≠ "") :
    (getSession (login st creds tok)).isAuthenticated = true ∧
    (getSession (login st creds tok)).user = some creds.username ∧
    (getSession (logout st2)).isAuthenticated = false := by
  refine ⟨?_, rfl, rfl⟩
  simp [getSession, login, jsTruthyStr, hu]

/-- Witness for C3 amended at the concrete credentials admin/admin. -/
theorem login_logout_session_invariant_witness :
    (getSession (login freshAuthState ⟨"admin", "admin"⟩ "tok")).isAuthenticated = true ∧
    (getSession (login freshAuthState ⟨"admin", "admin"⟩ "tok")).user = some "admin" ∧
    (getSession (logout freshAuthState)).isAuthenticated = false :=
  login_logout_session_invariant freshAuthState freshAuthState ⟨"admin", "admin"⟩
    ⟨"admin", "admin"⟩ "tok" (by rfl) (by simp)

/-- C4: when both identifying fields of the filter are absent, the query
function answers the error-tagged placeholder entry with zero network
calls, and ensure on the empty filter resolves to that entry with zero
network calls. -/
theorem ensure_no_filter_placeholder (f : FilterType) (net : FetchOutcome)
    (hu : f.userId = none) (hp : f.postId = none) :
    GetUserPostById f net = (some (.error placeholderPost), 0) ∧
    (ensure emptyCache ⟨none, none⟩ net).fst = some (.error placeholderPost) ∧
    (ensure emptyCache ⟨none, none⟩ net).snd.snd = 0 := by
  refine ⟨?_, by rfl, by rfl⟩
  simp [GetUserPostById, hu, hp, jsFalsyNum]

/-- Witness for C4 at the empty filter. -/
theorem ensure_no_filter_placeholder_witness :
    GetUserPostById ⟨none, none⟩ .reject = (some (.error placeholderPost), 0) ∧
    (ensure emptyCache ⟨none, none⟩ .reject).fst = some (.error placeholderPost) ∧
    (ensure emptyCache ⟨none, none⟩ .reject).snd.snd = 0 :=
  ensure_no_filter_placeholder ⟨none, none⟩ .reject rfl rfl

/-- C5: when the filter does request a fetch and the returned payload
fails schema validation, the result is the error-tagged placeholder entry
(the raw data is discarded), the promise settles without rejecting, and
ensure surfaces the same entry. -/
theorem invalid_payload_downgraded (f : FilterType) (body : Json)
    (hf : (jsFalsyNum f.postId && jsFalsyNum f.userId) = false)
    (hb : parsePostArray body = none) :
    GetUserPostById f (.ok body) = (some (.error placeholderPost), 1) ∧
    (ensure emptyCache f (.ok body)).fst = some (.error placeholderPost) := by
  have h : GetUserPostById f (.ok body) = (some (.error placeholderPost), 1) := by
    simp [GetUserPostById, hf, hb]
  refine ⟨h, ?_⟩
  simp [ensure, emptyCache, QueryCache.lookup, lookupKey, h]

/-- Witness for C5: filter with userId 3, body a bare number, which fails
array validation. -/
theorem invalid_payload_downgraded_witness :
    GetUserPostById ⟨some 3, none⟩ (.ok (.num 5)) = (some (.error placeholderPost), 1) ∧
    (ensure emptyCache ⟨some 3, none⟩ (.ok (.num 5))).fst = some (.error placeholderPost) :=
  invalid_payload_downgraded ⟨some 3, none⟩ (.num 5) (by decide) (by decide)

/-- C6: FilterSchema.parse never raises: on every raw search object it
returns ok, each numeric field is kept, and each absent or non-numeric
field collapses to absent. -/
theorem filter_parse_total_lenient (raw : RawSearch) :
    FilterSchema.parse raw = .ok ⟨numOrAbsent raw.userId, numOrAbsent raw.postId⟩ := by
  cases raw with
  | mk u p =>
      cases u <;> cases p <;> rfl

/-- C7: the token-clearing branch of setStoredToken removes the user key
and leaves the persisted token untouched. -/
theorem setStoredToken_clear_wrong_key (s : Storage) :
    (setStoredToken s none).user = none ∧
    (setStoredToken s none).token = s.token := by
  constructor <;> rfl

/-- C8: serialising a valid SearchFilter into the URL and re-validating it
through FilterSchema reproduces the same SearchFilter. -/
theorem filter_roundtrip (f : FilterType) :
    FilterSchema.parse (serializeSearch f) = .ok f := by
  cases f with
  | mk u p =>
      cases u <;> cases p <;> rfl

/-- C9: a zero-valued identifier with the other field absent is treated
like an absent one: the falsiness test skips the network call and answers
the error-tagged placeholder entry. -/
theorem zero_id_treated_as_absent (f : FilterType) (net : FetchOutcome)
    (h : (f.userId = some 0 ∧ f.postId = none) ∨ (f.postId = some 0 ∧ f.userId = none)) :
    GetUserPostById f net = (some (.error placeholderPost), 0) := by
  rcases h with ⟨h1, h2⟩ | ⟨h1, h2⟩ <;> simp [GetUserPostById, h1, h2, jsFalsyNum]

/-- Witness for C9 at userId zero, postId absent. -/
theorem zero_id_treated_as_absent_witness :
    GetUserPostById ⟨some 0, none⟩ .reject = (some (.error placeholderPost), 0) :=
  zero_id_treated_as_absent ⟨some 0, none⟩ .reject (Or.inl ⟨rfl, rfl⟩)

/-- C10: logout clears only the user identity, in memory and in storage;
the in-memory token and the persisted token key keep their values. -/
theorem logout_leaves_token (st : AuthState) :
    (logout st).user = none ∧
    (logout st).storage.user = none ∧
    (logout st).token = st.token ∧
    (logout st).storage.token = st.storage.token ∧
    (getSession (logout st)).token = st.token := by
  refine ⟨rfl, rfl, rfl, rfl, rfl⟩
